import Mathlib

/-!
Verification of the `lab6-stepfunctions` lambda handlers
(`process_data.py`, `send_notification.py`, `trigger_workflow.py`)
against their natural-language specification.

Modelling conventions (shallow embedding of the Python source):
* Python floats are modelled as rationals (`ℚ`); all comparisons in the
  source are order comparisons against decimal literals, which `ℚ`
  represents exactly.
* `random.uniform(a, b)`, `random.random()`, `random.randint(a, b)` and
  `random.choice` draws are explicit inputs to each handler, bundled in a
  "random tape" structure; distributional guarantees (e.g. `randint(100,1000)`
  lands in `[100, 1000]`) become hypotheses of the theorems that need them.
* `int(time.time())` is an explicit `now : ℤ` input; `time.sleep` has no
  observable effect and is not modelled.
* A Python function that may `raise` is embedded as a function into
  `Except String _`, the error message being `str(e)` of the raised
  exception.  A bare `except Exception` block that re-raises
  `Exception(str(e))` preserves the message and is therefore the identity
  on the `.error` case.
* Python truthiness of a string read with `dict.get` is modelled by
  `Option String` together with `Option.getD` and emptiness tests:
  `not x` holds for an absent key (`none`, after the code's own default is
  applied) and for the empty string.
-/

namespace StepLab

/-- Python `round(q * 10^n) / 10^n` uses round-half-to-even (banker's
rounding).  This is the integer rounding step on an exact rational. -/
def roundHalfEven (q : ℚ) : ℤ :=
  if q - ⌊q⌋ < 1/2 then ⌊q⌋
  else if 1/2 < q - ⌊q⌋ then ⌊q⌋ + 1
  else if 2 ∣ ⌊q⌋ then ⌊q⌋ else ⌊q⌋ + 1

/-- Python `round(q, n)` on an exact decimal: round-half-to-even to `n`
decimal places. -/
def pyRound (n : ℕ) (q : ℚ) : ℚ :=
  (roundHalfEven (q * 10 ^ n) : ℚ) / 10 ^ n

theorem floor_le_roundHalfEven (q : ℚ) : ⌊q⌋ ≤ roundHalfEven q := by
  unfold roundHalfEven
  split
  · exact le_refl _
  split
  · omega
  split <;> omega

theorem roundHalfEven_le_of_le {b : ℤ} {q : ℚ} (h : q ≤ (b : ℚ)) :
    roundHalfEven q ≤ b := by
  have hfl : ⌊q⌋ ≤ b := Int.le_of_sub_nonneg (by
    have := Int.floor_le q
    have h2 : (⌊q⌋ : ℚ) ≤ (b : ℚ) := le_trans this h
    exact_mod_cast sub_nonneg.mpr h2)
  have hup : (1:ℚ)/2 ≤ q - ⌊q⌋ → ⌊q⌋ + 1 ≤ b := by
    intro hr
    have hlt : (⌊q⌋ : ℚ) < (b : ℚ) := by
      have : (⌊q⌋ : ℚ) + 1/2 ≤ q := by linarith
      linarith
    have : ⌊q⌋ < b := by exact_mod_cast hlt
    omega
  unfold roundHalfEven
  split
  · exact hfl
  · rename_i h1
    push_neg at h1
    split
    · rename_i h2
      exact hup (le_of_lt h2)
    · split
      · exact hfl
      · exact hup h1

theorem roundHalfEven_ge_of_ge {a : ℤ} {q : ℚ} (h : (a : ℚ) ≤ q) :
    a ≤ roundHalfEven q := by
  have : a ≤ ⌊q⌋ := Int.le_floor.mpr h
  exact le_trans this (floor_le_roundHalfEven q)

/-- Bounds are preserved by Python rounding to `n` decimals whenever the
bounds themselves are multiples of `10^-n`. -/
theorem pyRound_mem {n : ℕ} {a b : ℤ} {q : ℚ}
    (ha : (a : ℚ) / 10 ^ n ≤ q) (hb : q ≤ (b : ℚ) / 10 ^ n) :
    (a : ℚ) / 10 ^ n ≤ pyRound n q ∧ pyRound n q ≤ (b : ℚ) / 10 ^ n := by
  have hpow : (0:ℚ) < 10 ^ n := by positivity
  have ha' : (a : ℚ) ≤ q * 10 ^ n := by
    rw [div_le_iff hpow] at ha; linarith
  have hb' : q * 10 ^ n ≤ (b : ℚ) := by
    rw [le_div_iff hpow] at hb; linarith
  have h1 : a ≤ roundHalfEven (q * 10 ^ n) := roundHalfEven_ge_of_ge ha'
  have h2 : roundHalfEven (q * 10 ^ n) ≤ b := roundHalfEven_le_of_le hb'
  constructor
  · unfold pyRound
    exact (div_le_div_right hpow).mpr (by exact_mod_cast h1)
  · unfold pyRound
    exact (div_le_div_right hpow).mpr (by exact_mod_cast h2)

/-! ## Data Processor (`process_data.py`) -/

/-- Lambda context object: the fields read by the handlers. -/
structure LambdaCtx where
  function_name : String
  aws_request_id : String
deriving Repr, DecidableEq

/-- The `metadata` block each handler attaches to its result. -/
structure Metadata where
  username : String
  functionName : String
  requestId : String
deriving Repr, DecidableEq

/-- Input event of `process_data.lambda_handler`: the two fields the
handler reads, plus the remaining fields of the event (ignored by the
handler), so that "regardless of any other fields" is expressible. -/
structure ProcessEvent where
  userId : Option String
  dataType : Option String
  extra : List (String × String)
deriving Repr, DecidableEq

/-- Random tape of one `process_data` invocation, one field per `random.*`
call in source order: `uniform(min_time, max_time)`, `random.random()`,
`randint(100, 1000)`, `uniform(0.7, 0.99)`, `choice(error_types)`. -/
structure ProcessTape where
  processing_duration : ℚ
  success_draw : ℚ
  records_processed : ℤ
  processing_score : ℚ
  error_choice : Fin 4
deriving Repr, DecidableEq

/-- Result record returned by `process_data.lambda_handler` on success
(`Option` fields are the keys present only in one of the two branches;
the FAILED-shaped record the source builds and then discards by raising
is not returned and hence not part of the returned-value model). -/
structure ProcessResult where
  userId : String
  dataType : String
  status : String
  processedAt : ℤ
  recordsProcessed : ℤ
  processingDuration : ℚ
  processingScore : ℚ
  nextStep : String
  metadata : Metadata
deriving Repr, DecidableEq

/-- The `processing_times` table: per-dataType `(min, max)` simulated
duration range, default `(1, 2)` via `dict.get(data_type, (1, 2))`. -/
def processing_times (data_type : String) : ℚ × ℚ :=
  if data_type = "sales_data" then (1, 2)
  else if data_type = "customer_data" then (1/2, 3/2)
  else if data_type = "inventory_data" then (2, 3)
  else if data_type = "analytics_data" then (3/2, 5/2)
  else if data_type = "general" then (1, 2)
  else (1, 2)

/-- The `success_rates` table, default `0.8` via `dict.get(data_type, 0.8)`. -/
def success_rates (data_type : String) : ℚ :=
  if data_type = "sales_data" then 9/10
  else if data_type = "customer_data" then 17/20
  else if data_type = "inventory_data" then 4/5
  else if data_type = "analytics_data" then 3/4
  else if data_type = "general" then 4/5
  else 4/5

/-- The `error_types` list of `process_data.py`. -/
def error_types : Fin 4 → String
  | 0 => "data_corruption"
  | 1 => "timeout"
  | 2 => "validation_error"
  | 3 => "resource_unavailable"

/-- Shallow embedding of `process_data.lambda_handler`.
`username` is `os.environ.get('USERNAME', 'unknown')`, `now` is
`int(time.time())` at result-construction time.  The outer
`except Exception` re-raises `Exception(str(e))`, which preserves the
message of both raise sites, so the embedding returns those messages
directly as `.error`. -/
def process_data (username : String) (ctx : LambdaCtx) (now : ℤ)
    (event : ProcessEvent) (tape : ProcessTape) : Except String ProcessResult :=
  let user_id := event.userId.getD "unknown"
  let data_type := event.dataType.getD "general"
  if user_id = "" ∨ data_type = "" then
    -- `raise ValueError("Missing required fields: userId or dataType")`,
    -- re-raised by the outer handler as `Exception(str(e))`
    .error "Missing required fields: userId or dataType"
  else
    let processing_duration := tape.processing_duration
    let success_rate := success_rates data_type
    let success := tape.success_draw < success_rate
    if success then
      .ok { userId := user_id
            dataType := data_type
            status := "SUCCESS"
            processedAt := now
            recordsProcessed := tape.records_processed
            processingDuration := pyRound 2 processing_duration
            processingScore := pyRound 3 tape.processing_score
            nextStep := "send_notification"
            metadata := { username := username
                          functionName := ctx.function_name
                          requestId := ctx.aws_request_id } }
    else
      -- the FAILED record is built and then discarded by
      -- `raise Exception(f"Data processing failed: {error_type}")`
      .error ("Data processing failed: " ++ error_types tape.error_choice)

/-! ### Claims C1 and C5 -/

/-- C1 (counterexample): an event with userId and dataType both absent
does not raise: the source defaults them to `'unknown'` and `'general'`
(both truthy) before the emptiness check, so the handler proceeds and, on
a success draw, returns normally. -/
theorem C1_absent_fields_do_not_raise :
    (process_data "user" ⟨"fn", "rid"⟩ 0
      { userId := none, dataType := none, extra := [("foo", "bar")] }
      { processing_duration := 1, success_draw := 0, records_processed := 500,
        processing_score := 4/5, error_choice := 0 }).isOk = true := by
  unfold process_data
  simp only [Option.getD]
  rw [if_neg (by simp),
    if_pos (by simp only [success_rates, String.reduceEq, if_false]; norm_num)]
  rfl

/-- C1 (amended): for every input event in which the userId field or the
dataType field is present but empty, the Data Processor raises the
validation error, regardless of any other fields of the event and of the
random draws; absent fields are defaulted to non-empty values and do not
trigger the validation error. -/
theorem C1_empty_fields_raise (username : String) (ctx : LambdaCtx) (now : ℤ)
    (event : ProcessEvent) (tape : ProcessTape)
    (h : event.userId = some "" ∨ event.dataType = some "") :
    process_data username ctx now event tape =
      .error "Missing required fields: userId or dataType" := by
  unfold process_data
  rcases h with h | h <;> rw [h] <;> simp [Option.getD]

/-- Witness for `C1_empty_fields_raise` at a concrete event. -/
theorem C1_empty_fields_raise_witness :
    process_data "user" ⟨"fn", "rid"⟩ 0
      { userId := some "", dataType := some "sales_data", extra := [] }
      { processing_duration := 1, success_draw := 0, records_processed := 500,
        processing_score := 4/5, error_choice := 0 } =
      .error "Missing required fields: userId or dataType" :=
  C1_empty_fields_raise "user" ⟨"fn", "rid"⟩ 0 _ _ (Or.inl rfl)

/-- C5: for every valid Task Descriptor (userId and dataType non-empty
after the source's own defaulting), the Data Processor either raises or
returns a payload with status SUCCESS, recordsProcessed in [100, 1000]
and processingScore in [0.7, 0.99]; the `.ok` branch is never non-SUCCESS.
The bounds hypotheses on the tape are the range guarantees of
`random.randint(100, 1000)` and `random.uniform(0.7, 0.99)`. -/
theorem C5_success_payload_bounds (username : String) (ctx : LambdaCtx)
    (now : ℤ) (event : ProcessEvent) (tape : ProcessTape)
    (huid : event.userId.getD "unknown" ≠ "")
    (hdt : event.dataType.getD "general" ≠ "")
    (hr1 : 100 ≤ tape.records_processed) (hr2 : tape.records_processed ≤ 1000)
    (hs1 : 7/10 ≤ tape.processing_score) (hs2 : tape.processing_score ≤ 99/100) :
    (∃ e, process_data username ctx now event tape = .error e) ∨
    (∃ res, process_data username ctx now event tape = .ok res ∧
      res.status = "SUCCESS" ∧
      100 ≤ res.recordsProcessed ∧ res.recordsProcessed ≤ 1000 ∧
      7/10 ≤ res.processingScore ∧ res.processingScore ≤ 99/100) := by
  unfold process_data
  rw [if_neg (by push_neg; exact ⟨huid, hdt⟩)]
  by_cases hsucc : tape.success_draw < success_rates (event.dataType.getD "general")
  · right
    rw [if_pos hsucc]
    refine ⟨_, rfl, rfl, hr1, hr2, ?_, ?_⟩
    · have := pyRound_mem (n := 3) (a := 700) (q := tape.processing_score)
        (b := 990) (by norm_num; linarith) (by norm_num; linarith)
      calc (7/10 : ℚ) = (700 : ℤ) / 10 ^ 3 := by norm_num
        _ ≤ _ := this.1
    · have := pyRound_mem (n := 3) (a := 700) (q := tape.processing_score)
        (b := 990) (by norm_num; linarith) (by norm_num; linarith)
      calc pyRound 3 tape.processing_score ≤ (990 : ℤ) / 10 ^ 3 := this.2
        _ = 99/100 := by norm_num
  · left
    rw [if_neg hsucc]
    exact ⟨_, rfl⟩

/-- Witness for `C5_success_payload_bounds` at a concrete descriptor and
tape. -/
theorem C5_success_payload_bounds_witness :
    (∃ e, process_data "user" ⟨"fn", "rid"⟩ 0
      { userId := some "alice", dataType := some "sales_data", extra := [] }
      { processing_duration := 1, success_draw := 0, records_processed := 500,
        processing_score := 4/5, error_choice := 0 } = .error e) ∨
    (∃ res, process_data "user" ⟨"fn", "rid"⟩ 0
      { userId := some "alice", dataType := some "sales_data", extra := [] }
      { processing_duration := 1, success_draw := 0, records_processed := 500,
        processing_score := 4/5, error_choice := 0 } = .ok res ∧
      res.status = "SUCCESS" ∧
      100 ≤ res.recordsProcessed ∧ res.recordsProcessed ≤ 1000 ∧
      7/10 ≤ res.processingScore ∧ res.processingScore ≤ 99/100) :=
  C5_success_payload_bounds "user" ⟨"fn", "rid"⟩ 0 _ _
    (by decide) (by decide) (by decide) (by decide) (by norm_num) (by norm_num)

/-! ## Notifier (`send_notification.py`) -/

/-- Input event of `send_notification.lambda_handler`: the five fields the
handler reads (each with a `dict.get` default applied in the handler). -/
structure NotifyEvent where
  userId : Option String
  status : Option String
  recordsProcessed : Option ℤ
  dataType : Option String
  processingScore : Option ℚ
deriving Repr, DecidableEq

/-- Random tape of one `send_notification` invocation, in source order:
`uniform(min_time, max_time)`, `random.random()` (the 5% failure draw),
`randint(1000, 9999)` (the deliveryId suffix). -/
structure NotifyTape where
  send_duration : ℚ
  success_draw : ℚ
  delivery_suffix : ℤ
deriving Repr, DecidableEq

/-- Notification record returned by `send_notification.lambda_handler`. -/
structure NotifyResult where
  userId : String
  notificationType : String
  status : String
  priority : String
  message : String
  sentAt : ℤ
  sendDuration : ℚ
  deliveryId : String
  originalDataType : String
  originalRecordsProcessed : ℤ
  originalProcessingScore : ℚ
  metadata : Metadata
deriving Repr, DecidableEq

/-- Channel selection of `send_notification.py` lines 33-42: SMS for an
excellent SUCCESS, EMAIL for a large SUCCESS, PUSH for other SUCCESS,
EMAIL for every non-SUCCESS status. -/
def notification_type (status : String) (processing_score : ℚ)
    (records_processed : ℤ) : String :=
  if status = "SUCCESS" then
    if processing_score > 9/10 then "SMS"
    else if records_processed > 500 then "EMAIL"
    else "PUSH"
  else "EMAIL"

/-- The `notification_times` table: per-channel `(min, max)` send-duration
range, default `(0.5, 1.0)` via `dict.get(notification_type, (0.5, 1.0))`. -/
def notification_times (nt : String) : ℚ × ℚ :=
  if nt = "EMAIL" then (1/2, 3/2)
  else if nt = "SMS" then (1/5, 4/5)
  else if nt = "PUSH" then (1/10, 1/2)
  else (1/2, 1)

/-- Priority selection of `send_notification.py` lines 58-63:
`'normal' if processing_score < 0.9 else 'high'` on SUCCESS, `'high'`
otherwise. -/
def notification_priority (status : String) (processing_score : ℚ) : String :=
  if status = "SUCCESS" then
    if processing_score < 9/10 then "normal" else "high"
  else "high"

/-- Message composition of `send_notification.py` lines 58-62.  Python's
numeric formatting (`{processing_score:.1%}`) is abstracted as the
`toString` of the rational; the claims do not constrain the message. -/
def notification_message (status : String) (records_processed : ℤ)
    (data_type : String) (processing_score : ℚ) : String :=
  if status = "SUCCESS" then
    "✅ Data processing completed successfully! " ++ toString records_processed
      ++ " " ++ data_type ++ " records processed with "
      ++ toString processing_score ++ " accuracy."
  else
    "❌ Data processing failed for " ++ data_type
      ++ ". Please check logs for details."

/-- Shallow embedding of `send_notification.lambda_handler`.  As in
`process_data`, the outer `except Exception` re-raises with the same
message, so the single raise site (the simulated 5% delivery failure,
`random.random() > 0.05` being the success test) appears as `.error`. -/
def send_notification (username : String) (ctx : LambdaCtx) (now : ℤ)
    (event : NotifyEvent) (tape : NotifyTape) : Except String NotifyResult :=
  let user_id := event.userId.getD "unknown"
  let status := event.status.getD "UNKNOWN"
  let records_processed := event.recordsProcessed.getD 0
  let data_type := event.dataType.getD "general"
  let processing_score := event.processingScore.getD 0
  let nt := notification_type status processing_score records_processed
  let send_duration := tape.send_duration
  let message := notification_message status records_processed data_type
    processing_score
  let priority := notification_priority status processing_score
  let notification_success := tape.success_draw > 1/20
  if ¬ notification_success then
    .error ("Notification service unavailable for " ++ nt)
  else
    .ok { userId := user_id
          notificationType := nt
          status := "SENT"
          priority := priority
          message := message
          sentAt := now
          sendDuration := pyRound 2 send_duration
          deliveryId := nt.toLower ++ "_" ++ toString now ++ "_"
            ++ toString tape.delivery_suffix
          originalDataType := data_type
          originalRecordsProcessed := records_processed
          originalProcessingScore := processing_score
          metadata := { username := username
                        functionName := ctx.function_name
                        requestId := ctx.aws_request_id } }

/-! ### Claims C2, C3 and C10 -/

/-- C2 (counterexample): an event with every field absent — in particular
no userId — does not raise a validation error: the Notifier substitutes
defaults and proceeds, returning a SENT record on a passing delivery
draw. -/
theorem C2_missing_fields_do_not_raise :
    (send_notification "user" ⟨"fn", "rid"⟩ 0
      { userId := none, status := none, recordsProcessed := none,
        dataType := none, processingScore := none }
      { send_duration := 1, success_draw := 1, delivery_suffix := 5000 }).isOk
      = true := by
  unfold send_notification
  rw [if_neg (by norm_num)]
  rfl

/-- C2 (amended): the Notifier performs no required-field validation at
all: for every input event (missing fields included, each replaced by its
`dict.get` default) it proceeds with the send, and the only error it ever
raises is the simulated delivery failure
`Notification service unavailable for <channel>` (the 5% draw). -/
theorem C2_no_validation_only_delivery_failure (username : String)
    (ctx : LambdaCtx) (now : ℤ) (event : NotifyEvent) (tape : NotifyTape) :
    (∃ res, send_notification username ctx now event tape = .ok res ∧
      res.status = "SENT") ∨
    send_notification username ctx now event tape =
      .error ("Notification service unavailable for "
        ++ notification_type (event.status.getD "UNKNOWN")
          (event.processingScore.getD 0) (event.recordsProcessed.getD 0)) := by
  unfold send_notification
  by_cases h : tape.success_draw > 1/20
  · left
    rw [if_neg (by simpa using h)]
    exact ⟨_, rfl, rfl⟩
  · right
    rw [if_pos (by simpa using h)]

/-- C3: the Notifier's channel selection is the pure function
`notification_type` of (status, processingScore, recordsProcessed):
SMS when status is SUCCESS and processingScore exceeds 0.9, otherwise
EMAIL when status is SUCCESS and recordsProcessed exceeds 500, otherwise
PUSH when status is SUCCESS, and EMAIL for every non-SUCCESS status. -/
theorem C3_channel_selection (status : String) (processing_score : ℚ)
    (records_processed : ℤ) :
    (status = "SUCCESS" → processing_score > 9/10 →
      notification_type status processing_score records_processed = "SMS") ∧
    (status = "SUCCESS" → ¬ processing_score > 9/10 → records_processed > 500 →
      notification_type status processing_score records_processed = "EMAIL") ∧
    (status = "SUCCESS" → ¬ processing_score > 9/10 → ¬ records_processed > 500 →
      notification_type status processing_score records_processed = "PUSH") ∧
    (status ≠ "SUCCESS" →
      notification_type status processing_score records_processed = "EMAIL") := by
  unfold notification_type
  refine ⟨?_, ?_, ?_, ?_⟩
  · intro h1 h2; rw [if_pos h1, if_pos h2]
  · intro h1 h2 h3; rw [if_pos h1, if_neg h2, if_pos h3]
  · intro h1 h2 h3; rw [if_pos h1, if_neg h2, if_neg h3]
  · intro h1; rw [if_neg h1]

/-- Witness for `C3_channel_selection`: the four worked examples of the
specification. -/
theorem C3_channel_selection_witness :
    notification_type "SUCCESS" (95/100) 0 = "SMS" ∧
    notification_type "SUCCESS" (5/10) 600 = "EMAIL" ∧
    notification_type "SUCCESS" (5/10) 100 = "PUSH" ∧
    notification_type "FAILED" (95/100) 600 = "EMAIL" :=
  ⟨(C3_channel_selection "SUCCESS" (95/100) 0).1 rfl (by norm_num),
   (C3_channel_selection "SUCCESS" (5/10) 600).2.1 rfl (by norm_num) (by decide),
   (C3_channel_selection "SUCCESS" (5/10) 100).2.2.1 rfl (by norm_num) (by decide),
   (C3_channel_selection "FAILED" (95/100) 600).2.2.2 (by decide)⟩

/-- C10: the Notifier's priority is `high` exactly when status is not
SUCCESS or processingScore is at least 0.9, and `normal` otherwise; stated
for the priority selector `notification_priority` the handler applies to
the extracted (status, processingScore). -/
theorem C10_priority (status : String) (processing_score : ℚ) :
    (notification_priority status processing_score = "high" ↔
      (status ≠ "SUCCESS" ∨ 9/10 ≤ processing_score)) ∧
    (notification_priority status processing_score = "normal" ↔
      ¬ (status ≠ "SUCCESS" ∨ 9/10 ≤ processing_score)) := by
  unfold notification_priority
  by_cases h : status = "SUCCESS"
  · rw [if_pos h]
    by_cases h2 : processing_score < 9/10
    · rw [if_pos h2]
      constructor
      · simp only [String.reduceEq, false_iff]
        push_neg
        exact ⟨h, h2⟩
      · simp only [not_or, not_le, true_iff]
        push_neg
        exact ⟨h, h2⟩
    · rw [if_neg h2]
      push_neg at h2
      constructor
      · simp only [true_iff]
        exact Or.inr h2
      · simp only [String.reduceEq, false_iff, not_or, not_not, not_le]
        intro hc
        exact absurd h2 (not_le.mpr hc.2)
  · rw [if_neg h]
    constructor
    · simp only [true_iff]
      exact Or.inl h
    · simp only [String.reduceEq, false_iff, not_or, not_not]
      intro hc
      exact absurd hc.1 h

/-! ## Workflow Trigger (`trigger_workflow.py`) -/

/-- A decoded request payload: the fields `trigger_workflow.lambda_handler`
reads from `body` (`userId`, `dataType`, and the optional passthroughs
`priority` and `options`, whose values are modelled as opaque strings). -/
structure TriggerObj where
  userId : Option String
  dataType : Option String
  priority : Option String
  options : Option String
deriving Repr, DecidableEq

/-- Input event of the trigger: an optional raw `body` string (the
API-gateway envelope) plus the event's own top-level fields, used directly
when the `body` key is absent or falsy (`if event.get('body'):`). -/
structure TriggerEvent where
  body : Option String
  obj : TriggerObj
deriving Repr, DecidableEq

/-- The `requestMetadata` block embedded into the workflow input. -/
structure RequestMetadata where
  requestId : String
  triggerSource : String
  username : String
  timestamp : ℤ
  apiVersion : String
deriving Repr, DecidableEq

/-- The `workflow_input` passed to `start_execution`. -/
structure WorkflowInput where
  userId : String
  dataType : String
  requestMetadata : RequestMetadata
  priority : Option String
  options : Option String
deriving Repr, DecidableEq

/-- The parameters of the one `stepfunctions.start_execution` call. -/
structure StartCall where
  stateMachineArn : String
  name : String
  input : WorkflowInput
deriving Repr, DecidableEq

/-- Outcome of the `start_execution` call, as observed by the handler:
success, a `ClientError` with a code and message, or any other exception
(not caught by the inner `except ClientError`, hence handled by the outer
`except Exception`). -/
inductive StartOutcome where
  | ok (executionArn : String) (startDate : Option String)
  | clientError (code : String) (message : String)
  | otherExc (message : String)
deriving Repr, DecidableEq

/-- The JSON body of a trigger response: the error payload built by
`create_error_response`, or the success payload of lines 97-108 (the
`json.dumps` serialization step is abstracted: this value is what is
serialized). -/
inductive TriggerBody where
  | err (error : String) (statusCode : ℤ) (timestamp : ℤ)
  | success (message : String) (executionArn : String)
      (executionName : String) (stateMachineArn : String)
      (input : WorkflowInput)
deriving Repr, DecidableEq

/-- An HTTP-shaped trigger response; `headers` is the Python dict as an
association list. -/
structure TriggerResponse where
  statusCode : ℤ
  headers : List (String × String)
  body : TriggerBody
deriving Repr, DecidableEq

/-- Observable result of one trigger invocation: the returned response
plus the `start_execution` call made, if any (`none` = the orchestrator
was never contacted). -/
structure TriggerOutput where
  resp : TriggerResponse
  startCall : Option StartCall
deriving Repr, DecidableEq

/-- Embedding of `create_error_response` of `trigger_workflow.py`. -/
def create_error_response (status_code : ℤ) (message : String) (now : ℤ) :
    TriggerResponse :=
  { statusCode := status_code
    headers := [("Content-Type", "application/json"),
                ("Access-Control-Allow-Origin", "*")]
    body := .err message status_code now }

/-- The `allowed_data_types` list of `trigger_workflow.py`. -/
def allowed_data_types : List String :=
  ["sales_data", "customer_data", "inventory_data", "analytics_data", "general"]

/-- The `except ClientError` branch of lines 120-133: error-code to
status-code mapping. -/
def handle_client_error (code : String) (message : String) (now : ℤ) :
    TriggerResponse :=
  if code = "StateMachineDoesNotExist" then
    create_error_response 500 "Step Functions state machine not found" now
  else if code = "InvalidParameterValue" then
    create_error_response 400 ("Invalid parameter: " ++ message) now
  else if code = "ExecutionLimitExceeded" then
    create_error_response 429 "Too many concurrent executions" now
  else
    create_error_response 500 ("Step Functions error: " ++ message) now

/-- Body extraction of lines 33-41: if the `body` key is truthy (present
and non-empty), decode it with `json.loads` (modelled by the `jsonLoads`
oracle, `.error` being a `JSONDecodeError`); otherwise the event object
itself is the payload. -/
def resolve_body (jsonLoads : String → Except String TriggerObj)
    (event : TriggerEvent) : Except String TriggerObj :=
  match event.body with
  | some s => if s = "" then .ok event.obj else jsonLoads s
  | none => .ok event.obj

/-- Shallow embedding of `trigger_workflow.lambda_handler`.
`username` and `stateMachineArnEnv` are the two environment reads (the
former already defaulted to `'unknown'` by `os.environ.get`), `now` is
`int(time.time())`, `uuid_suffix` is `uuid.uuid4().hex[:8]`, `clientExc`
models an exception raised inside the outer `try` before the
`start_execution` call (e.g. by `boto3.client`), and `startOutcome` is the
orchestrator's behaviour on the start call.  The outer `except Exception`
converts every modelled exception into a 500 response, so the embedding is
a total function into `TriggerOutput`. -/
def trigger_workflow (username : String) (stateMachineArnEnv : Option String)
    (ctx : LambdaCtx) (now : ℤ) (uuid_suffix : String)
    (jsonLoads : String → Except String TriggerObj)
    (clientExc : Option String) (startOutcome : StartOutcome)
    (event : TriggerEvent) : TriggerOutput :=
  let state_machine_arn := stateMachineArnEnv.getD ""
  if state_machine_arn = "" then
    ⟨create_error_response 500
      "Configuration error: STATE_MACHINE_ARN not found" now, none⟩
  else
    match clientExc with
    | some m =>
      ⟨create_error_response 500 ("Internal server error: " ++ m) now, none⟩
    | none =>
      match resolve_body jsonLoads event with
      | .error _ =>
        ⟨create_error_response 400 "Invalid JSON in request body" now, none⟩
      | .ok body =>
        let user_id := body.userId.getD ""
        let data_type0 := body.dataType.getD ""
        if user_id = "" then
          ⟨create_error_response 400 "Missing required field: userId" now, none⟩
        else if data_type0 = "" then
          ⟨create_error_response 400 "Missing required field: dataType" now, none⟩
        else
          let data_type :=
            if data_type0 ∈ allowed_data_types then data_type0 else "general"
          let workflow_input : WorkflowInput :=
            { userId := user_id
              dataType := data_type
              requestMetadata := { requestId := ctx.aws_request_id
                                   triggerSource := "api_gateway"
                                   username := username
                                   timestamp := now
                                   apiVersion := "1.0" }
              priority := body.priority
              options := body.options }
          let execution_name := username ++ "-" ++ data_type ++ "-"
            ++ toString now ++ "-" ++ uuid_suffix
          let call : StartCall :=
            ⟨state_machine_arn, execution_name, workflow_input⟩
          match startOutcome with
          | .ok execution_arn _ =>
            ⟨{ statusCode := 200
               headers := [("Content-Type", "application/json"),
                           ("Access-Control-Allow-Origin", "*"),
                           ("X-Request-ID", ctx.aws_request_id)]
               body := .success "Workflow started successfully" execution_arn
                 execution_name state_machine_arn workflow_input },
             some call⟩
          | .clientError code msg =>
            ⟨handle_client_error code msg now, some call⟩
          | .otherExc msg =>
            ⟨create_error_response 500 ("Internal server error: " ++ msg) now,
             some call⟩

/-! ### Claims C4, C6, C7, C8 and C9 -/

/-- C4: the Workflow Trigger never raises past its boundary: for every
configuration, random draw, collaborator behaviour and input event the
embedding is a total function into a structured response whose headers
contain Content-Type and Access-Control-Allow-Origin (and whose body is
the JSON value that `json.dumps` serializes); a modelled exception before
the start call, and a non-ClientError exception from the start call
itself, are both converted to a 500 response by the outer
`except Exception`. -/
theorem C4_structured_response (username : String) (arnEnv : Option String)
    (ctx : LambdaCtx) (now : ℤ) (sfx : String)
    (jl : String → Except String TriggerObj) (clientExc : Option String)
    (so : StartOutcome) (event : TriggerEvent) (m : String) :
    ("Content-Type", "application/json") ∈
      (trigger_workflow username arnEnv ctx now sfx jl clientExc so event).resp.headers ∧
    ("Access-Control-Allow-Origin", "*") ∈
      (trigger_workflow username arnEnv ctx now sfx jl clientExc so event).resp.headers ∧
    (trigger_workflow username arnEnv ctx now sfx jl (some m) so event).resp.statusCode
      = 500 ∧
    ((trigger_workflow username arnEnv ctx now sfx jl none (.otherExc m) event).startCall.isSome →
      (trigger_workflow username arnEnv ctx now sfx jl none (.otherExc m) event).resp.statusCode
        = 500) := by
  refine ⟨?_, ?_, ?_, ?_⟩
  · simp only [trigger_workflow, create_error_response, handle_client_error]
    repeat' split
    all_goals simp
  · simp only [trigger_workflow, create_error_response, handle_client_error]
    repeat' split
    all_goals simp
  · simp only [trigger_workflow, create_error_response]
    repeat' split
    all_goals simp
  · simp only [trigger_workflow, create_error_response]
    repeat' split
    all_goals intro h
    all_goals simp_all

/-- Witness for `C4_structured_response` at a concrete invocation. -/
theorem C4_structured_response_witness :
    ("Content-Type", "application/json") ∈
      (trigger_workflow "u" (some "arn:sm") ⟨"fn", "rid"⟩ 0 "abcd1234"
        (fun _ => .error "e") none (.ok "arn:exec" none)
        ⟨none, ⟨some "alice", some "general", none, none⟩⟩).resp.headers ∧
    ("Access-Control-Allow-Origin", "*") ∈
      (trigger_workflow "u" (some "arn:sm") ⟨"fn", "rid"⟩ 0 "abcd1234"
        (fun _ => .error "e") none (.ok "arn:exec" none)
        ⟨none, ⟨some "alice", some "general", none, none⟩⟩).resp.headers ∧
    (trigger_workflow "u" (some "arn:sm") ⟨"fn", "rid"⟩ 0 "abcd1234"
        (fun _ => .error "e") (some "boom") (.ok "arn:exec" none)
        ⟨none, ⟨some "alice", some "general", none, none⟩⟩).resp.statusCode = 500 ∧
    (trigger_workflow "u" (some "arn:sm") ⟨"fn", "rid"⟩ 0 "abcd1234"
        (fun _ => .error "e") none (.otherExc "boom")
        ⟨none, ⟨some "alice", some "general", none, none⟩⟩).resp.statusCode = 500 := by
  have h := C4_structured_response "u" (some "arn:sm") ⟨"fn", "rid"⟩ 0 "abcd1234"
    (fun _ => .error "e") none (.ok "arn:exec" none)
    ⟨none, ⟨some "alice", some "general", none, none⟩⟩ "boom"
  exact ⟨h.1, h.2.1, h.2.2.1, h.2.2.2 (by rfl)⟩

/-- C6 (counterexample): a present but empty `body` field is falsy for
`if event.get('body'):`, so the handler never decodes it and instead uses
the event object itself.  Here the `jsonLoads` oracle rejects every
string — in particular the present body `""` is not valid JSON — yet the
handler returns 200 rather than the claimed 400. -/
theorem C6_empty_body_not_rejected :
    (trigger_workflow "u" (some "arn:sm") ⟨"fn", "rid"⟩ 0 "abcd1234"
      (fun _ => .error "Expecting value: line 1 column 1 (char 0)") none
      (.ok "arn:exec" none)
      ⟨some "", ⟨some "alice", some "general", none, none⟩⟩).resp.statusCode
      = 200 := by
  rfl

/-- C6 (amended): with the configuration present, the Workflow Trigger
returns 400 and never contacts the orchestrator when the decoded payload
has no userId, when it has a truthy userId but no dataType, and when the
body field is present and non-empty but is not valid JSON; a present but
empty body string is instead treated as an absent body (the event object
itself is used as the payload). -/
theorem C6_four_hundred_paths (username : String) (arnEnv : Option String)
    (ctx : LambdaCtx) (now : ℤ) (sfx : String) (so : StartOutcome)
    (harn : arnEnv.getD "" ≠ "") :
    (∀ jl event obj, resolve_body jl event = .ok obj → obj.userId = none →
      (trigger_workflow username arnEnv ctx now sfx jl none so event).resp.statusCode = 400 ∧
      (trigger_workflow username arnEnv ctx now sfx jl none so event).startCall = none) ∧
    (∀ jl event obj uid, resolve_body jl event = .ok obj →
      obj.userId = some uid → uid ≠ "" → obj.dataType = none →
      (trigger_workflow username arnEnv ctx now sfx jl none so event).resp.statusCode = 400 ∧
      (trigger_workflow username arnEnv ctx now sfx jl none so event).startCall = none) ∧
    (∀ jl event s e, event.body = some s → s ≠ "" → jl s = .error e →
      (trigger_workflow username arnEnv ctx now sfx jl none so event).resp.statusCode = 400 ∧
      (trigger_workflow username arnEnv ctx now sfx jl none so event).startCall = none) := by
  refine ⟨?_, ?_, ?_⟩
  · intro jl event obj hres huid
    simp only [trigger_workflow]
    rw [if_neg harn, hres]
    simp [huid, create_error_response]
  · intro jl event obj uid hres huid hne hdt
    simp only [trigger_workflow]
    rw [if_neg harn, hres]
    simp [huid, hne, hdt, create_error_response]
  · intro jl event s e hbody hs hjl
    simp only [trigger_workflow]
    rw [if_neg harn]
    simp only [resolve_body, hbody]
    rw [if_neg hs, hjl]
    simp [create_error_response]

/-- Witness for `C6_four_hundred_paths`: one concrete event per branch
(userId absent; dataType absent; truthy body rejected by the decoder). -/
theorem C6_four_hundred_paths_witness :
    ((trigger_workflow "u" (some "arn:sm") ⟨"fn", "rid"⟩ 0 "ab"
        (fun _ => .error "e") none (.ok "x" none)
        ⟨none, ⟨none, some "general", none, none⟩⟩).resp.statusCode = 400 ∧
      (trigger_workflow "u" (some "arn:sm") ⟨"fn", "rid"⟩ 0 "ab"
        (fun _ => .error "e") none (.ok "x" none)
        ⟨none, ⟨none, some "general", none, none⟩⟩).startCall = none) ∧
    ((trigger_workflow "u" (some "arn:sm") ⟨"fn", "rid"⟩ 0 "ab"
        (fun _ => .error "e") none (.ok "x" none)
        ⟨none, ⟨some "alice", none, none, none⟩⟩).resp.statusCode = 400 ∧
      (trigger_workflow "u" (some "arn:sm") ⟨"fn", "rid"⟩ 0 "ab"
        (fun _ => .error "e") none (.ok "x" none)
        ⟨none, ⟨some "alice", none, none, none⟩⟩).startCall = none) ∧
    ((trigger_workflow "u" (some "arn:sm") ⟨"fn", "rid"⟩ 0 "ab"
        (fun _ => .error "e") none (.ok "x" none)
        ⟨some "not json", ⟨some "alice", some "general", none, none⟩⟩).resp.statusCode = 400 ∧
      (trigger_workflow "u" (some "arn:sm") ⟨"fn", "rid"⟩ 0 "ab"
        (fun _ => .error "e") none (.ok "x" none)
        ⟨some "not json", ⟨some "alice", some "general", none, none⟩⟩).startCall = none) := by
  have h := C6_four_hundred_paths "u" (some "arn:sm") ⟨"fn", "rid"⟩ 0 "ab"
    (.ok "x" none) (by decide)
  exact ⟨h.1 _ _ _ rfl rfl,
         h.2.1 _ _ _ "alice" rfl rfl (by decide) rfl,
         h.2.2 _ _ "not json" "e" rfl (by decide) rfl⟩

/-- C7: on a categorized `ClientError` from the start-execution call the
Workflow Trigger maps ExecutionLimitExceeded to 429,
StateMachineDoesNotExist to 500, InvalidParameterValue to 400, and every
other error code to a 500 response carrying the raw message. -/
theorem C7_client_error_mapping (username : String) (arnEnv : Option String)
    (ctx : LambdaCtx) (now : ℤ) (sfx : String)
    (jl : String → Except String TriggerObj) (event : TriggerEvent)
    (obj : TriggerObj) (msg : String)
    (harn : arnEnv.getD "" ≠ "")
    (hres : resolve_body jl event = .ok obj)
    (huid : obj.userId.getD "" ≠ "")
    (hdt : obj.dataType.getD "" ≠ "") :
    (trigger_workflow username arnEnv ctx now sfx jl none
      (.clientError "ExecutionLimitExceeded" msg) event).resp.statusCode = 429 ∧
    (trigger_workflow username arnEnv ctx now sfx jl none
      (.clientError "StateMachineDoesNotExist" msg) event).resp.statusCode = 500 ∧
    (trigger_workflow username arnEnv ctx now sfx jl none
      (.clientError "InvalidParameterValue" msg) event).resp.statusCode = 400 ∧
    (∀ code, code ≠ "StateMachineDoesNotExist" → code ≠ "InvalidParameterValue" →
      code ≠ "ExecutionLimitExceeded" →
      (trigger_workflow username arnEnv ctx now sfx jl none
        (.clientError code msg) event).resp =
        create_error_response 500 ("Step Functions error: " ++ msg) now) := by
  refine ⟨?_, ?_, ?_, ?_⟩
  · simp only [trigger_workflow]
    rw [if_neg harn, hres]
    simp [huid, hdt, handle_client_error, create_error_response]
  · simp only [trigger_workflow]
    rw [if_neg harn, hres]
    simp [huid, hdt, handle_client_error, create_error_response]
  · simp only [trigger_workflow]
    rw [if_neg harn, hres]
    simp [huid, hdt, handle_client_error, create_error_response]
  · intro code h1 h2 h3
    simp only [trigger_workflow]
    rw [if_neg harn, hres]
    simp [huid, hdt, handle_client_error, h1, h2, h3]

/-- Witness for `C7_client_error_mapping` at a concrete invocation, with
`Throttling` as the uncategorized code. -/
theorem C7_client_error_mapping_witness :
    (trigger_workflow "u" (some "arn:sm") ⟨"fn", "rid"⟩ 0 "ab"
      (fun _ => .error "e") none
      (.clientError "ExecutionLimitExceeded" "busy")
      ⟨none, ⟨some "alice", some "general", none, none⟩⟩).resp.statusCode = 429 ∧
    (trigger_workflow "u" (some "arn:sm") ⟨"fn", "rid"⟩ 0 "ab"
      (fun _ => .error "e") none
      (.clientError "StateMachineDoesNotExist" "busy")
      ⟨none, ⟨some "alice", some "general", none, none⟩⟩).resp.statusCode = 500 ∧
    (trigger_workflow "u" (some "arn:sm") ⟨"fn", "rid"⟩ 0 "ab"
      (fun _ => .error "e") none
      (.clientError "InvalidParameterValue" "busy")
      ⟨none, ⟨some "alice", some "general", none, none⟩⟩).resp.statusCode = 400 ∧
    (trigger_workflow "u" (some "arn:sm") ⟨"fn", "rid"⟩ 0 "ab"
      (fun _ => .error "e") none
      (.clientError "Throttling" "busy")
      ⟨none, ⟨some "alice", some "general", none, none⟩⟩).resp =
      create_error_response 500 ("Step Functions error: " ++ "busy") 0 := by
  have h := C7_client_error_mapping "u" (some "arn:sm") ⟨"fn", "rid"⟩ 0 "ab"
    (fun _ => .error "e") ⟨none, ⟨some "alice", some "general", none, none⟩⟩
    ⟨some "alice", some "general", none, none⟩ "busy"
    (by decide) rfl (by decide) (by decide)
  exact ⟨h.1, h.2.1, h.2.2.1,
         h.2.2.2 "Throttling" (by decide) (by decide) (by decide)⟩

/-- C8: when the STATE_MACHINE_ARN configuration value is absent, the
Workflow Trigger returns the 500 configuration-error response for every
input event, every collaborator behaviour and every modelled exception,
without ever contacting the orchestrator (`startCall = none`) — the check
precedes all other validation. -/
theorem C8_missing_config (username : String) (ctx : LambdaCtx) (now : ℤ)
    (sfx : String) (jl : String → Except String TriggerObj)
    (clientExc : Option String) (so : StartOutcome) (event : TriggerEvent) :
    trigger_workflow username none ctx now sfx jl clientExc so event =
      ⟨create_error_response 500
        "Configuration error: STATE_MACHINE_ARN not found" now, none⟩ := by
  rfl

/-- C9: a request whose dataType is truthy but not one of the five allowed
values is normalized to `general`: the start-execution call is made (for
every collaborator behaviour) with workflow-input dataType `general`, and
on a successful start the handler returns 200 rather than an error
response. -/
theorem C9_unknown_datatype_normalized (username : String)
    (arnEnv : Option String) (ctx : LambdaCtx) (now : ℤ) (sfx : String)
    (jl : String → Except String TriggerObj) (event : TriggerEvent)
    (obj : TriggerObj) (d : String)
    (harn : arnEnv.getD "" ≠ "")
    (hres : resolve_body jl event = .ok obj)
    (huid : obj.userId.getD "" ≠ "")
    (hdt : obj.dataType = some d) (hd : d ≠ "")
    (hallow : d ∉ allowed_data_types) :
    (∀ so, ∃ c, (trigger_workflow username arnEnv ctx now sfx jl none so
        event).startCall = some c ∧ c.input.dataType = "general") ∧
    (∀ arn sd, (trigger_workflow username arnEnv ctx now sfx jl none
        (.ok arn sd) event).resp.statusCode = 200) := by
  constructor
  · intro so
    simp only [trigger_workflow]
    rw [if_neg harn, hres]
    simp only [hdt, Option.getD_some]
    rw [if_neg huid, if_neg hd, if_neg hallow]
    cases so <;> exact ⟨_, rfl, rfl⟩
  · intro arn sd
    simp only [trigger_workflow]
    rw [if_neg harn, hres]
    simp only [hdt, Option.getD_some]
    rw [if_neg huid, if_neg hd, if_neg hallow]

/-- Witness for `C9_unknown_datatype_normalized` with dataType `bogus`. -/
theorem C9_unknown_datatype_normalized_witness :
    (∀ so, ∃ c, (trigger_workflow "u" (some "arn:sm") ⟨"fn", "rid"⟩ 0 "ab"
        (fun _ => .error "e") none so
        ⟨none, ⟨some "alice", some "bogus", none, none⟩⟩).startCall = some c ∧
        c.input.dataType = "general") ∧
    (∀ arn sd, (trigger_workflow "u" (some "arn:sm") ⟨"fn", "rid"⟩ 0 "ab"
        (fun _ => .error "e") none (.ok arn sd)
        ⟨none, ⟨some "alice", some "bogus", none, none⟩⟩).resp.statusCode = 200) :=
  C9_unknown_datatype_normalized "u" (some "arn:sm") ⟨"fn", "rid"⟩ 0 "ab"
    (fun _ => .error "e") ⟨none, ⟨some "alice", some "bogus", none, none⟩⟩
    ⟨some "alice", some "bogus", none, none⟩ "bogus"
    (by decide) rfl (by decide) rfl (by decide) (by decide)

end StepLab
